import Mathlib

/-!
Verification development for the pushmanager git verification queue
(`pushmanager/core/git.py`).

The Python module is embedded shallowly:

* a database row of the `push_requests` table becomes the structure `Request`,
  and the table itself a `List Request`; the SQL select-by-id / select-by-revision /
  update-then-reread operations become list operations mirroring the queries;
* the external `git ls-remote` process is an input value `ProcResult`
  (return code, stdout, stderr); `GitCommand.run` turns it into
  `Except GitException ...` exactly as the Python method raises on a
  non-zero return code;
* side effects (enqueued mails, webhook posts, log lines, remote invocations,
  an escaped exception) are returned explicitly in `PipelineResult`;
* the worker loop `process_queue` is modelled as a fold over a finite list of
  queued job ids, producing a trace of `WorkerEvent`s (the one-second sleep is
  the event `throttle`, `Queue.task_done` is the event `task_done`).

`pushmanager/core/util.py` is not part of the sources; its tag helpers are
modelled from the spec and marked as such in their doc comments.
-/

/-- Exception value raised by `GitCommand.run` (class `GitException` in the
source).  The `gitkwargs` field (the Python keyword-argument dictionary) is
omitted: it is always empty in the calls the queue makes. -/
structure GitException where
  details : String
  gitret : Int
  gitout : String
  giterr : String
deriving DecidableEq, Repr

/-- Outcome of the external `git` process: return code and the captured
stdout / stderr, as delivered by `subprocess.Popen.communicate`. -/
structure ProcResult where
  returncode : Int
  stdout : String
  stderr : String
deriving DecidableEq, Repr

/-- One row of the `push_requests` table, restricted to the columns
`core/git.py` reads.  `revision` and `reviewid` are nullable columns.
The `tags` column (a delimited string in the database) is modelled as the
list of its tags. -/
structure Request where
  id : Nat
  user : String
  title : String
  repo : String
  branch : String
  revision : Option String
  tags : List String
  state : String
  reviewid : Option Nat
deriving DecidableEq, Repr

/-- An email enqueued via `MailQueue.enqueue_user_email(recipients, body, subject)`. -/
structure Email where
  recipients : List String
  body : String
  subject : String
deriving DecidableEq, Repr

/-- One call of `webhook_req(left_type, left_token, right_type, right_token)`;
tokens are rendered to strings as `urlencode` does. -/
structure Webhook where
  left_type : String
  left_token : String
  right_type : String
  right_token : String
deriving DecidableEq, Repr

/-- The configuration values `core/git.py` reads from `Settings`.
Optional settings (`auth`, `port`) use the empty string for the Python
falsy values. -/
structure GitSettings where
  scheme : String
  servername : String
  auth : String
  port : String
  main_repository : String
  dev_repositories_dir : String
  exclude_from_verification : List String
  main_app_servername : String
  main_app_port : Nat
  reviewboard_servername : String
deriving DecidableEq, Repr

/-- Modelled from the spec: `tags_contain` of `pushmanager.core.util` is not in
the sources.  Per the spec, the exclusion configuration is a set of tag names
that, if present in the request tag set, skip verification; so
`tags_contain tags markers` holds when some marker occurs among the tags. -/
def tags_contain (tags : List String) (markers : List String) : Bool :=
  markers.any (fun m => tags.contains m)

/-- Modelled from the spec: `add_to_tags_str` of `pushmanager.core.util` is not
in the sources.  Per the spec, `tags` is an ordered set of markers; adding a
marker inserts it when absent and leaves the set unchanged when present. -/
def add_to_tags_str (tags : List String) (tag : String) : List String :=
  if tags.contains tag then tags else tags ++ [tag]

/-- Modelled from the spec: `del_from_tags_str` of `pushmanager.core.util` is
not in the sources.  Per the spec, removing a marker deletes every occurrence
from the tag set. -/
def del_from_tags_str (tags : List String) (tag : String) : List String :=
  tags.filter (fun t => t ≠ tag)

/-- Tag update performed by the success path of `GitQueue.update_request`
(source lines 290-291): add `git-ok`, then remove `git-error`. -/
def success_tags (tags : List String) : List String :=
  del_from_tags_str (add_to_tags_str tags "git-ok") "git-error"

/-- Tag update performed by `GitQueue.update_request_failure`
(source lines 366-367): add `git-error`, then remove `git-ok`. -/
def failure_tags (tags : List String) : List String :=
  del_from_tags_str (add_to_tags_str tags "git-error") "git-ok"

/-- Embeds `GitQueue.request_is_excluded_from_git_verification`. -/
def GitQueue.request_is_excluded_from_git_verification
    (s : GitSettings) (req : Request) : Bool :=
  tags_contain req.tags s.exclude_from_verification

/-- Embeds `GitQueue._get_repository_uri`. -/
def GitQueue.get_repository_uri (s : GitSettings) (repository : String) : String :=
  let netloc := s.servername
  let netloc := if s.auth ≠ "" then s.auth ++ "@" ++ netloc else netloc
  let netloc := if s.port ≠ "" then netloc ++ ":" ++ s.port else netloc
  if repository = s.main_repository then
    s.scheme ++ "://" ++ netloc ++ "/" ++ s.main_repository
  else
    s.scheme ++ "://" ++ netloc ++ "/" ++ s.dev_repositories_dir ++ "/" ++ repository

/-- Embeds `GitCommand.run`: the method raises `GitException` whenever the
process return code is non-zero (Python truthiness of the integer), so a
non-error return always carries return code zero. -/
def GitCommand.run (args : List String) (p : ProcResult) :
    Except GitException (Int × String × String) :=
  if p.returncode ≠ 0 then
    Except.error
      { details := "GitException: git " ++ String.intercalate " " args ++ " "
        gitret := p.returncode
        gitout := p.stdout
        giterr := p.stderr }
  else
    Except.ok (p.returncode, p.stdout, p.stderr)

/-- Splitting a character list at every separator, keeping empty fields
(the semantics of splitting a string at a separator predicate); defined
structurally over the character list so that concrete runs reduce. -/
def splitChars (p : Char → Bool) : List Char → List (List Char)
  | [] => [[]]
  | c :: cs =>
    if p c then [] :: splitChars p cs
    else
      match splitChars p cs with
      | [] => [[c]]
      | t :: ts => (c :: t) :: ts

/-- Python `str.split()` with no argument: split on whitespace runs,
dropping empty tokens. -/
def pySplitWhitespace (s : String) : List String :=
  ((splitChars Char.isWhitespace s.data).map (fun l => String.mk l)).filter
    (fun t => t ≠ "")

/-- Python `str.strip()`: drop leading and trailing whitespace; defined
structurally over the character list so that concrete runs reduce. -/
def pyStrip (s : String) : String :=
  String.mk
    (((s.data.dropWhile Char.isWhitespace).reverse.dropWhile Char.isWhitespace).reverse)

/-- First element satisfying the predicate: the `first()` of a SQLAlchemy
result set (row order of the list model). -/
def firstWhere {α : Type} (p : α → Bool) : List α → Option α
  | [] => none
  | a :: t => if p a then some a else firstWhere p t

/-- The pairing `zip(tokens, tokens)` over a single token generator:
consecutive tokens are paired, a trailing odd token is dropped. -/
def pairTokens : List String → List (String × String)
  | a :: b :: rest => (a, b) :: pairTokens rest
  | _ => []

/-- Python rendering of a nullable string column (`None` prints as `None`). -/
def pyOptStr : Option String → String
  | some v => v
  | none => "None"

/-- Python rendering of a nullable integer column (`None` prints as `None`). -/
def pyOptNat : Option Nat → String
  | some v => toString v
  | none => "None"

/-- Email sent by the unreachable non-zero-return-code branch of
`GitQueue._get_branch_sha_from_repo` (source lines 139-163).  The body keeps
the interpolated fields of the HTML template in order; the constant HTML
wrapper text is abbreviated and the HTML escaping of `EscapedDict`
(from the missing `core/util.py`) is elided. -/
def GitQueue.query_error_email (req : Request) (stderr : String) : Email :=
  { recipients := [req.user]
    body :=
      "There was an error verifying your push request in Git: "
        ++ req.user ++ " - " ++ req.title ++ " "
        ++ req.repo ++ "/" ++ req.branch
        ++ " Attempting to query the specified repository failed with the following error(s): "
        ++ stderr
    subject := "[push error] " ++ req.user ++ " - " ++ req.title }

/-- Email sent when the branch ref is absent from the `ls-remote` listing
(source lines 172-193); same abbreviation conventions as
`GitQueue.query_error_email`. -/
def GitQueue.branch_not_found_email (req : Request) : Email :=
  { recipients := [req.user]
    body :=
      "There was an error verifying your push request in Git: "
        ++ req.user ++ " - " ++ req.title ++ " "
        ++ req.repo ++ "/" ++ req.branch
        ++ " The specified branch (" ++ req.branch
        ++ ") was not found in the repository."
    subject := "[push error] " ++ req.user ++ " - " ++ req.title }

/-- Embeds `GitQueue._get_branch_sha_from_repo`.  The external `ls-remote`
process outcome is the input `remote`.  Returns the resolved sha (or `none`)
together with the emails the method enqueues; a `GitException` raised by
`GitCommand.run` propagates as `Except.error`.  The `rc ≠ 0` test after a
successful `run` reproduces the source's dead `if rc:` branch. -/
def GitQueue.get_branch_sha_from_repo (s : GitSettings) (remote : ProcResult)
    (req : Request) : Except GitException (Option String × List Email) :=
  let repository := GitQueue.get_repository_uri s req.repo
  match GitCommand.run ["ls-remote", "-h", repository, req.branch] remote with
  | Except.error e => Except.error e
  | Except.ok (rc, stdout0, stderr) =>
    let stdout := pyStrip stdout0
    if rc ≠ 0 then
      Except.ok (none, [GitQueue.query_error_email req stderr])
    else
      let refs := pairTokens (pySplitWhitespace stdout)
      match (firstWhere (fun p => p.2 == "refs/heads/" ++ req.branch) refs).map (fun p => p.1) with
      | some sha => Except.ok (some sha, [])
      | none => Except.ok (none, [GitQueue.branch_not_found_email req])

/-- The `updated_values` dictionary passed to `GitQueue._update_request`:
the success path sets `revision` and `tags`, the failure path only `tags`. -/
inductive UpdatedValues where
  | revisionAndTags (revision : String) (tags : List String)
  | tagsOnly (tags : List String)
deriving DecidableEq, Repr

/-- Applying an `updated_values` dictionary to a row, as the SQL `UPDATE`
does. -/
def applyValues (v : UpdatedValues) (r : Request) : Request :=
  match v with
  | UpdatedValues.revisionAndTags sha t => { r with revision := some sha, tags := t }
  | UpdatedValues.tagsOnly t => { r with tags := t }

/-- The tag list an `updated_values` dictionary writes. -/
def UpdatedValues.tags : UpdatedValues → List String
  | UpdatedValues.revisionAndTags _ t => t
  | UpdatedValues.tagsOnly t => t

/-- Rendering of the `updated_values` dictionary for the log line
`"Updated Request values were: %s" % repr(updated_values)`.  The exact Python
`repr` formatting is not reproduced; the rendering keeps the field names and
values. -/
def reprValues : UpdatedValues → String
  | UpdatedValues.revisionAndTags sha t =>
      "revision: " ++ sha ++ ", tags: " ++ String.intercalate "," t
  | UpdatedValues.tagsOnly t => "tags: " ++ String.intercalate "," t

/-- Embeds `GitQueue._get_request`: `SELECT ... WHERE id = request_id`,
first row. -/
def GitQueue.get_request (db : List Request) (request_id : Nat) : Option Request :=
  firstWhere (fun r => r.id == request_id) db

/-- Embeds `GitQueue._get_request_with_sha`: `SELECT ... WHERE revision = sha`,
first row.  A SQL `NULL` revision never matches. -/
def GitQueue.get_request_with_sha (db : List Request) (sha : String) : Option Request :=
  firstWhere (fun r => r.revision == some sha) db

/-- Result of `GitQueue._update_request`: the table after the update, the
re-read row, and the error log lines emitted when the re-read found no row. -/
structure UpdateDbResult where
  db : List Request
  updated : Option Request
  logs : List String
deriving DecidableEq, Repr

/-- Embeds `GitQueue._update_request`: in one transaction, `UPDATE ... WHERE
id = req.id` followed by `SELECT ... WHERE id = req.id`; when the re-read
returns no row, two error lines are logged (request id, attempted values). -/
def GitQueue.update_request_db (db : List Request) (req : Request)
    (v : UpdatedValues) : UpdateDbResult :=
  match firstWhere (fun r => r.id == req.id)
      (db.map (fun r => if r.id == req.id then applyValues v r else r)) with
  | some u =>
    { db := db.map (fun r => if r.id == req.id then applyValues v r else r)
      updated := some u, logs := [] }
  | none =>
    { db := db.map (fun r => if r.id == req.id then applyValues v r else r)
      updated := none
      logs :=
        ["Git-queue worker failed to update the request (id "
            ++ toString req.id ++ ").",
         "Updated Request values were: " ++ reprValues v] }

/-- Success email of `GitQueue.update_request_successful` (source lines
300-339), built from the re-read row; body abbreviated as for the other
email templates, keeping the interpolated fields in template order. -/
def GitQueue.success_email (s : GitSettings) (u : Request) : Email :=
  let portStr :=
    if s.main_app_port ≠ 443 then ":" ++ toString s.main_app_port else ""
  { recipients := [u.user]
    body :=
      "PushManager has verified the branch for your request. "
        ++ u.user ++ " - " ++ u.title ++ " "
        ++ u.repo ++ "/" ++ u.branch ++ " https://"
        ++ s.main_app_servername ++ portStr ++ "/request?id=" ++ toString u.id
        ++ " Review # (if specified): https://"
        ++ s.reviewboard_servername ++ portStr ++ "/r/" ++ pyOptNat u.reviewid
        ++ " Verified revision: " ++ pyOptStr u.revision
    subject := "[push] " ++ u.user ++ " - " ++ u.title }

/-- Embeds the notification part of `GitQueue.update_request_successful`:
one email to the owner and the webhook calls for the branch ref, the
resolved revision, and (when the Python-truthy `reviewid` is present) the
review id.  The unknown schema of the `reviewid` column (from the missing
`core/db.py`) is modelled per the spec as an optional identifier, its
truthiness as presence. -/
def GitQueue.update_request_successful (s : GitSettings) (u : Request) :
    List Email × List Webhook :=
  ([GitQueue.success_email s u],
    [{ left_type := "pushrequest", left_token := toString u.id
       right_type := "ref", right_token := u.branch },
     { left_type := "pushrequest", left_token := toString u.id
       right_type := "commit", right_token := pyOptStr u.revision }]
      ++ (match u.reviewid with
          | some rid =>
            [{ left_type := "pushrequest", left_token := toString u.id
               right_type := "review", right_token := toString rid }]
          | none => []))

/-- Failure email of `GitQueue.update_request_failure` (source lines 372-408),
built from the request row as fetched and the failure reason; body abbreviated
as for the other email templates, keeping the interpolated fields in template
order. -/
def GitQueue.failure_email (s : GitSettings) (req : Request)
    (failure_msg : String) : Email :=
  { recipients := [req.user]
    body :=
      "PushManager could not verify the branch for your request. "
        ++ req.user ++ " - " ++ req.title ++ " "
        ++ req.repo ++ "/" ++ req.branch ++ " https://"
        ++ s.main_app_servername ++ "/request?id=" ++ toString req.id
        ++ " Error message: " ++ failure_msg
        ++ " Review # (if specified): https://"
        ++ s.reviewboard_servername ++ "/r/" ++ pyOptNat req.reviewid
        ++ " Verified revision: " ++ pyOptStr req.revision
    subject := "[push] " ++ req.user ++ " - " ++ req.title }

/-- Database state plus effects of one of the two terminal commit steps. -/
structure CommitResult where
  db : List Request
  emails : List Email
  webhooks : List Webhook
  logs : List String
deriving DecidableEq, Repr

/-- Embeds `GitQueue.update_request_failure`: log the reason, add `git-error`
and remove `git-ok`, persist the tags, then email the owner the reason
(the email is sent whether or not the re-read found a row). -/
def GitQueue.update_request_failure (s : GitSettings) (db : List Request)
    (req : Request) (failure_msg : String) : CommitResult :=
  match GitQueue.update_request_db db req
      (UpdatedValues.tagsOnly (failure_tags req.tags)) with
  | { db := db2, updated := _, logs := dbLogs } =>
    { db := db2
      emails := [GitQueue.failure_email s req failure_msg]
      webhooks := []
      logs := failure_msg :: dbLogs }

/-- Embeds the success tail of `GitQueue.update_request` (source lines
290-296): persist `revision := sha` plus the success tags atomically with a
re-read, then notify from the re-read row; when the re-read found no row the
notification step is skipped and only the persistence error lines remain. -/
def GitQueue.commit_success (s : GitSettings) (db : List Request)
    (req : Request) (sha : String) : CommitResult :=
  match GitQueue.update_request_db db req
      (UpdatedValues.revisionAndTags sha (success_tags req.tags)) with
  | { db := db2, updated := some u, logs := dbLogs } =>
    { db := db2
      emails := (GitQueue.update_request_successful s u).1
      webhooks := (GitQueue.update_request_successful s u).2
      logs := dbLogs }
  | { db := db2, updated := none, logs := dbLogs } =>
    { db := db2, emails := [], webhooks := [], logs := dbLogs }

/-- Log line for a job whose request id matches no row. -/
def GitQueue.nonexistent_request_msg (request_id : Nat) : String :=
  "Git queue worker received a job for non-existent request id "
    ++ toString request_id

/-- Failure reason for a request whose `branch` column is empty. -/
def GitQueue.no_branch_msg (request_id : Nat) : String :=
  "Git queue worker received a job for request with no branch (id "
    ++ toString request_id ++ ")"

/-- Failure reason when `_get_branch_sha_from_repo` returned `None`. -/
def GitQueue.no_revision_msg (request_id : Nat) : String :=
  "Git queue worker could not get the revision from request branch (id "
    ++ toString request_id ++ ")"

/-- Failure reason for a duplicate-revision conflict; the first id is the
conflicting row's, the second the id of the job being processed. -/
def GitQueue.duplicate_sha_msg (dup_id request_id : Nat) : String :=
  "Git queue worker found another request with the same revision sha (ids "
    ++ toString dup_id ++ " and " ++ toString request_id ++ ")"

/-- Everything one run of `GitQueue.update_request` produces: the table
afterwards, the enqueued emails, the webhook calls, the log lines, the number
of remote `ls-remote` invocations, and the `GitException` escaping the method,
when one does. -/
structure PipelineResult where
  db : List Request
  emails : List Email
  webhooks : List Webhook
  logs : List String
  remoteCalls : Nat
  exn : Option GitException
deriving DecidableEq, Repr

/-- Embeds `GitQueue.update_request`, the verification pipeline for one job:
load the request, exclusion check, empty-branch check, remote resolution,
duplicate-revision check, then the success or failure commit.  A
`GitException` raised by the remote resolution propagates out (`exn`). -/
def GitQueue.update_request (s : GitSettings) (remote : ProcResult)
    (db : List Request) (request_id : Nat) : PipelineResult :=
  match GitQueue.get_request db request_id with
  | none =>
    { db := db, emails := [], webhooks := []
      logs := [GitQueue.nonexistent_request_msg request_id]
      remoteCalls := 0, exn := none }
  | some req =>
    if GitQueue.request_is_excluded_from_git_verification s req then
      { db := db, emails := [], webhooks := [], logs := []
        remoteCalls := 0, exn := none }
    else if req.branch = "" then
      let c := GitQueue.update_request_failure s db req (GitQueue.no_branch_msg request_id)
      { db := c.db, emails := c.emails, webhooks := c.webhooks, logs := c.logs
        remoteCalls := 0, exn := none }
    else
      match GitQueue.get_branch_sha_from_repo s remote req with
      | Except.error e =>
        { db := db, emails := [], webhooks := [], logs := []
          remoteCalls := 1, exn := some e }
      | Except.ok (none, mails) =>
        let c := GitQueue.update_request_failure s db req (GitQueue.no_revision_msg request_id)
        { db := c.db, emails := mails ++ c.emails, webhooks := c.webhooks
          logs := c.logs, remoteCalls := 1, exn := none }
      | Except.ok (some sha, mails) =>
        match GitQueue.get_request_with_sha db sha with
        | some dup =>
          if dup.state ≠ "discarded" then
            let c := GitQueue.update_request_failure s db req
              (GitQueue.duplicate_sha_msg dup.id request_id)
            { db := c.db, emails := mails ++ c.emails, webhooks := c.webhooks
              logs := c.logs, remoteCalls := 1, exn := none }
          else
            let c := GitQueue.commit_success s db req sha
            { db := c.db, emails := mails ++ c.emails, webhooks := c.webhooks
              logs := c.logs, remoteCalls := 1, exn := none }
        | none =>
          let c := GitQueue.commit_success s db req sha
          { db := c.db, emails := mails ++ c.emails, webhooks := c.webhooks
            logs := c.logs, remoteCalls := 1, exn := none }

/-- Events of the worker-loop trace: the fixed one-second sleep before each
job (`throttle`), a log line, and `Queue.task_done` (`task_done`). -/
inductive WorkerEvent where
  | throttle : WorkerEvent
  | log (msg : String) : WorkerEvent
  | task_done : WorkerEvent
deriving DecidableEq, Repr

/-- The worker loop of `GitQueue.process_queue` over a finite list of queued
job ids, abstracted over the per-job action `run` (state transformer plus an
optional message for an exception escaping the job).  Per job, in source
order: sleep (throttle), dequeue, run the pipeline catching any exception
into a log event, `task_done` in the `finally` block. -/
def process_queue_with {σ : Type} (run : σ → Nat → σ × Option String) :
    σ → List Nat → σ × List WorkerEvent
  | st, [] => (st, [])
  | st, j :: rest =>
    let step := run st j
    let tail := process_queue_with run step.1 rest
    (tail.1,
      WorkerEvent.throttle ::
        ((match step.2 with
          | some m => [WorkerEvent.log m]
          | none => []) ++ WorkerEvent.task_done :: tail.2))

/-- Embeds `GitQueue.process_queue` for a finite queue prefix: each job runs
`GitQueue.update_request` on the current table; an escaping exception is
caught and logged as the source's `THREAD ERROR:` line.  `remote` gives the
`ls-remote` outcome for each request id. -/
def GitQueue.process_queue (s : GitSettings) (remote : Nat → ProcResult)
    (db : List Request) (jobs : List Nat) : List Request × List WorkerEvent :=
  process_queue_with
    (fun st id =>
      let out := GitQueue.update_request s (remote id) st id
      (out.db, out.exn.map (fun _ => "THREAD ERROR:")))
    db jobs

/-- Embeds `GitQueue.enqueue_request`: append the job id to the queue tail. -/
def GitQueue.enqueue_request (queue : List Nat) (request_id : Nat) : List Nat :=
  queue ++ [request_id]

/-- Sample configuration used by the concrete runs below. -/
def settings0 : GitSettings :=
  { scheme := "git", servername := "example.com", auth := "", port := ""
    main_repository := "main", dev_repositories_dir := "dev"
    exclude_from_verification := ["no-verify"]
    main_app_servername := "pm.example.com", main_app_port := 443
    reviewboard_servername := "rb.example.com" }

/-- A request that was already verified successfully: it carries `git-ok`
and its `revision` is the commit its branch still resolves to. -/
def reqOkSelf : Request :=
  { id := 1, user := "alice", title := "Add feature", repo := "svc", branch := "b"
    revision := some "s1", tags := ["git-ok"], state := "added", reviewid := none }

/-- Table holding only `reqOkSelf`. -/
def dbSelf : List Request := [reqOkSelf]

/-- Remote outcome: `ls-remote` succeeds and advertises branch `b` at
commit `s1`. -/
def remoteB : ProcResult :=
  { returncode := 0, stdout := "s1\trefs/heads/b\n", stderr := "" }

/-- A fresh request whose branch resolves cleanly; it has a review id. -/
def reqFresh : Request :=
  { id := 7, user := "alice", title := "Add feature", repo := "svc"
    branch := "feature-1", revision := none, tags := [], state := "added"
    reviewid := some 42 }

/-- Table holding only `reqFresh`. -/
def dbFresh : List Request := [reqFresh]

/-- Remote outcome advertising branch `feature-1` at commit `abc123`. -/
def remoteF1 : ProcResult :=
  { returncode := 0, stdout := "abc123\trefs/heads/feature-1\n", stderr := "" }

/-- A discarded request bound to commit `s3`. -/
def reqDiscarded : Request :=
  { id := 2, user := "bob", title := "Old", repo := "svc", branch := "old"
    revision := some "s3", tags := [], state := "discarded", reviewid := none }

/-- A non-discarded request bound to commit `s3`. -/
def reqActive : Request :=
  { id := 3, user := "carol", title := "Other", repo := "svc", branch := "other"
    revision := some "s3", tags := [], state := "added", reviewid := none }

/-- The request being verified against the `s3` bindings. -/
def reqCur : Request :=
  { id := 4, user := "dave", title := "Current", repo := "svc", branch := "b3"
    revision := none, tags := [], state := "added", reviewid := none }

/-- Table where the first row bound to `s3` is discarded but a second,
non-discarded row is bound to `s3` as well. -/
def dbShadowed : List Request := [reqDiscarded, reqActive, reqCur]

/-- Table where the first row bound to `s3` is the non-discarded one. -/
def dbConflict : List Request := [reqActive, reqCur]

/-- Remote outcome advertising branch `b3` at commit `s3`. -/
def remoteB3 : ProcResult :=
  { returncode := 0, stdout := "s3\trefs/heads/b3\n", stderr := "" }

/-- A request with an empty branch column. -/
def reqNoBranch : Request :=
  { id := 5, user := "erin", title := "No branch", repo := "svc", branch := ""
    revision := none, tags := ["git-ok"], state := "added", reviewid := none }

/-- Table holding only `reqNoBranch`. -/
def dbNoBranch : List Request := [reqNoBranch]

/-- A request carrying the configured exclusion tag of `settings0`. -/
def reqExcluded : Request :=
  { id := 6, user := "frank", title := "Skip", repo := "svc", branch := "b"
    revision := none, tags := ["no-verify"], state := "added", reviewid := none }

/-- Table holding only `reqExcluded`. -/
def dbExcluded : List Request := [reqExcluded]

/-- A request whose remote query will fail. -/
def reqRemoteErr : Request :=
  { id := 9, user := "gil", title := "Broken", repo := "svc", branch := "b"
    revision := none, tags := [], state := "added", reviewid := none }

/-- Table holding only `reqRemoteErr`. -/
def dbRemoteErr : List Request := [reqRemoteErr]

/-- Remote outcome: the `ls-remote` process exits with code 128 and the
stderr text of the spec scenario. -/
def remoteFail : ProcResult :=
  { returncode := 128, stdout := "", stderr := "repository not found" }

/-- Applying an `updated_values` dictionary never changes the row id. -/
theorem applyValues_id (v : UpdatedValues) (r : Request) :
    (applyValues v r).id = r.id := by
  cases v <;> rfl

/-- The tag list of an updated row is exactly the one the dictionary wrote. -/
theorem applyValues_tags (v : UpdatedValues) (r : Request) :
    (applyValues v r).tags = v.tags := by
  cases v <;> rfl

/-- The added tag is a member of the tag set afterwards. -/
theorem mem_add_to_tags_str (t : List String) (x : String) :
    x ∈ add_to_tags_str t x := by
  unfold add_to_tags_str
  split
  · next h => exact List.mem_of_elem_eq_true h
  · exact List.mem_append.mpr (Or.inr (List.mem_singleton.mpr rfl))

/-- The removed tag is gone from the tag set afterwards. -/
theorem not_mem_del_from_tags_str (t : List String) (x : String) :
    x ∉ del_from_tags_str t x := by
  intro h
  have := (List.mem_filter.mp h).2
  simp at this

/-- Removing a different tag keeps a member. -/
theorem mem_del_from_tags_str_of_ne (t : List String) (x y : String)
    (hne : y ≠ x) (hm : y ∈ t) : y ∈ del_from_tags_str t x := by
  exact List.mem_filter.mpr ⟨hm, by simpa using hne⟩

/-- The success tag update leaves `git-ok` present. -/
theorem success_tags_mem_ok (t : List String) : "git-ok" ∈ success_tags t :=
  mem_del_from_tags_str_of_ne _ _ _ (by decide) (mem_add_to_tags_str t "git-ok")

/-- The success tag update removes `git-error`. -/
theorem success_tags_not_mem_error (t : List String) :
    "git-error" ∉ success_tags t :=
  not_mem_del_from_tags_str _ _

/-- The failure tag update leaves `git-error` present. -/
theorem failure_tags_mem_error (t : List String) : "git-error" ∈ failure_tags t :=
  mem_del_from_tags_str_of_ne _ _ _ (by decide) (mem_add_to_tags_str t "git-error")

/-- The failure tag update removes `git-ok`. -/
theorem failure_tags_not_mem_ok (t : List String) : "git-ok" ∉ failure_tags t :=
  not_mem_del_from_tags_str _ _


/-- A first-row lookup that returned a row: the row satisfies the filter. -/
theorem firstWhere_some {α : Type} {p : α → Bool} {a : α} {l : List α}
    (h : firstWhere p l = some a) : p a = true := by
  induction l with
  | nil => simp [firstWhere] at h
  | cons b t ih =>
    by_cases hb : p b = true
    · have : b = a := by simpa [firstWhere, hb] using h
      exact this ▸ hb
    · exact ih (by simpa [firstWhere, hb] using h)

/-- A first-row lookup that returned a row: the row is in the table. -/
theorem mem_of_firstWhere {α : Type} {p : α → Bool} {a : α} {l : List α}
    (h : firstWhere p l = some a) : a ∈ l := by
  induction l with
  | nil => simp [firstWhere] at h
  | cons b t ih =>
    by_cases hb : p b = true
    · have : b = a := by simpa [firstWhere, hb] using h
      exact this ▸ List.mem_cons_self b t
    · exact List.mem_cons_of_mem b (ih (by simpa [firstWhere, hb] using h))

/-- A first-row lookup over a table with no matching row returns nothing. -/
theorem firstWhere_eq_none {α : Type} {p : α → Bool} {l : List α}
    (h : ∀ x ∈ l, p x = false) : firstWhere p l = none := by
  induction l with
  | nil => rfl
  | cons b t ih =>
    have hb : p b = false := h b (List.mem_cons_self b t)
    simp [firstWhere, hb]
    exact ih (fun x hx => h x (List.mem_cons_of_mem b hx))

/-- Re-reading after the update finds the updated image of the row the
original lookup found. -/
theorem firstWhere_map_applyValues (db : List Request) (req : Request)
    (v : UpdatedValues)
    (h : firstWhere (fun r => r.id == req.id) db = some req) :
    firstWhere (fun r => r.id == req.id)
      (db.map (fun r => if r.id == req.id then applyValues v r else r)) =
      some (applyValues v req) := by
  induction db with
  | nil => simp [firstWhere] at h
  | cons a t ih =>
    by_cases ha : (a.id == req.id) = true
    · have haq : a = req := by simpa [firstWhere, ha] using h
      subst haq
      simp [firstWhere, ha, applyValues_id]
    · have h2 : firstWhere (fun r => r.id == req.id) t = some req := by
        simpa [firstWhere, ha] using h
      rw [List.map_cons, if_neg ha]
      have hstep :
          firstWhere (fun r : Request => r.id == req.id)
            (a :: t.map (fun r => if r.id == req.id then applyValues v r else r)) =
          firstWhere (fun r : Request => r.id == req.id)
            (t.map (fun r => if r.id == req.id then applyValues v r else r)) := by
        simp [firstWhere, ha]
      rw [hstep]
      exact ih h2

/-- Value of `GitQueue._update_request` when the row is present: the table
with the row updated, the updated row re-read, and no error log. -/
theorem update_request_db_found (db : List Request) (req : Request)
    (v : UpdatedValues)
    (h : firstWhere (fun r => r.id == req.id) db = some req) :
    GitQueue.update_request_db db req v =
      { db := db.map (fun r => if r.id == req.id then applyValues v r else r)
        updated := some (applyValues v req)
        logs := [] } := by
  unfold GitQueue.update_request_db
  rw [firstWhere_map_applyValues db req v h]

/-- The table component of `GitQueue._update_request` is the mapped table in
either match branch. -/
theorem update_request_db_db (db : List Request) (req : Request)
    (v : UpdatedValues) :
    (GitQueue.update_request_db db req v).db =
      db.map (fun r => if r.id == req.id then applyValues v r else r) := by
  unfold GitQueue.update_request_db
  split <;> rfl

/-- Value of `GitQueue.update_request_failure` when the row is present. -/
theorem update_request_failure_found (s : GitSettings) (db : List Request)
    (req : Request) (msg : String)
    (h : firstWhere (fun r => r.id == req.id) db = some req) :
    GitQueue.update_request_failure s db req msg =
      { db := db.map (fun r =>
          if r.id == req.id then
            applyValues (UpdatedValues.tagsOnly (failure_tags req.tags)) r
          else r)
        emails := [GitQueue.failure_email s req msg]
        webhooks := []
        logs := [msg] } := by
  unfold GitQueue.update_request_failure
  rw [update_request_db_found db req _ h]

/-- Value of `GitQueue.commit_success` when the row is present: the update
succeeds and the re-read row is notified. -/
theorem commit_success_found (s : GitSettings) (db : List Request)
    (req : Request) (sha : String)
    (h : firstWhere (fun r => r.id == req.id) db = some req) :
    GitQueue.commit_success s db req sha =
      { db := db.map (fun r =>
          if r.id == req.id then
            applyValues (UpdatedValues.revisionAndTags sha (success_tags req.tags)) r
          else r)
        emails := [GitQueue.success_email s
          { req with revision := some sha, tags := success_tags req.tags }]
        webhooks :=
          (GitQueue.update_request_successful s
            { req with revision := some sha, tags := success_tags req.tags }).2
        logs := [] } := by
  unfold GitQueue.commit_success
  rw [update_request_db_found db req _ h]
  rfl

/-- The table component of `GitQueue.update_request_failure`. -/
theorem update_request_failure_db (s : GitSettings) (db : List Request)
    (req : Request) (msg : String) :
    (GitQueue.update_request_failure s db req msg).db =
      (GitQueue.update_request_db db req
        (UpdatedValues.tagsOnly (failure_tags req.tags))).db := by
  unfold GitQueue.update_request_failure
  split
  next db2 u lg heq => rw [heq]

/-- The table component of `GitQueue.commit_success`. -/
theorem commit_success_db_eq (s : GitSettings) (db : List Request)
    (req : Request) (sha : String) :
    (GitQueue.commit_success s db req sha).db =
      (GitQueue.update_request_db db req
        (UpdatedValues.revisionAndTags sha (success_tags req.tags))).db := by
  unfold GitQueue.commit_success
  split
  next db2 u lg heq => rw [heq]
  next db2 lg heq => rw [heq]

/-- C5: a job whose request carries a configured exclusion tag terminates
before any remote query and performs no mutation at all: the table is
unchanged and no email, webhook or log line is produced. -/
theorem c5_excluded_request_untouched (s : GitSettings) (remote : ProcResult)
    (db : List Request) (rid : Nat) (req : Request)
    (hreq : GitQueue.get_request db rid = some req)
    (hexc : GitQueue.request_is_excluded_from_git_verification s req = true) :
    GitQueue.update_request s remote db rid =
      { db := db, emails := [], webhooks := [], logs := []
        remoteCalls := 0, exn := none } := by
  simp [GitQueue.update_request, hreq, hexc]

/-- Witness for C5: a concrete excluded request is left untouched. -/
theorem c5_excluded_request_untouched_witness :
    GitQueue.get_request dbExcluded 6 = some reqExcluded ∧
    GitQueue.request_is_excluded_from_git_verification settings0 reqExcluded = true ∧
    GitQueue.update_request settings0 remoteB dbExcluded 6 =
      { db := dbExcluded, emails := [], webhooks := [], logs := []
        remoteCalls := 0, exn := none } :=
  ⟨rfl, rfl,
    c5_excluded_request_untouched settings0 remoteB dbExcluded 6 reqExcluded rfl rfl⟩

/-- C4: a job whose request exists, is not excluded and has an empty branch
performs no remote query, persists the failure tags (`git-error` gained,
`git-ok` lost), and enqueues exactly one failure email to the owner. -/
theorem c4_empty_branch_failure (s : GitSettings) (remote : ProcResult)
    (db : List Request) (rid : Nat) (req : Request)
    (hreq : GitQueue.get_request db rid = some req)
    (hexc : GitQueue.request_is_excluded_from_git_verification s req = false)
    (hbr : req.branch = "") :
    (GitQueue.update_request s remote db rid).remoteCalls = 0 ∧
    (GitQueue.update_request s remote db rid).emails =
      [GitQueue.failure_email s req (GitQueue.no_branch_msg rid)] ∧
    (GitQueue.update_request s remote db rid).webhooks = [] ∧
    firstWhere (fun r => r.id == rid) (GitQueue.update_request s remote db rid).db =
      some { req with tags := failure_tags req.tags } ∧
    "git-error" ∈ failure_tags req.tags ∧
    "git-ok" ∉ failure_tags req.tags := by
  have hid : req.id = rid := by
    have := firstWhere_some hreq
    simpa using this
  subst hid
  have hfail := update_request_failure_found s db req (GitQueue.no_branch_msg req.id) hreq
  have hfw := firstWhere_map_applyValues db req
    (UpdatedValues.tagsOnly (failure_tags req.tags)) hreq
  have hbranch : GitQueue.update_request s remote db req.id =
      { db := (GitQueue.update_request_failure s db req (GitQueue.no_branch_msg req.id)).db
        emails := (GitQueue.update_request_failure s db req (GitQueue.no_branch_msg req.id)).emails
        webhooks := (GitQueue.update_request_failure s db req (GitQueue.no_branch_msg req.id)).webhooks
        logs := (GitQueue.update_request_failure s db req (GitQueue.no_branch_msg req.id)).logs
        remoteCalls := 0, exn := none } := by
    simp [GitQueue.update_request, hreq, hexc, hbr]
  refine ⟨?_, ?_, ?_, ?_, failure_tags_mem_error _, failure_tags_not_mem_ok _⟩
  · rw [hbranch]
  · rw [hbranch, hfail]
  · rw [hbranch, hfail]
  · rw [hbranch, hfail]
    exact hfw

/-- Witness for C4: a concrete empty-branch request fails without a remote
call and with exactly one failure email. -/
theorem c4_empty_branch_failure_witness :
    GitQueue.get_request dbNoBranch 5 = some reqNoBranch ∧
    GitQueue.request_is_excluded_from_git_verification settings0 reqNoBranch = false ∧
    reqNoBranch.branch = "" ∧
    ((GitQueue.update_request settings0 remoteB dbNoBranch 5).remoteCalls = 0 ∧
     (GitQueue.update_request settings0 remoteB dbNoBranch 5).emails =
       [GitQueue.failure_email settings0 reqNoBranch (GitQueue.no_branch_msg 5)] ∧
     (GitQueue.update_request settings0 remoteB dbNoBranch 5).webhooks = [] ∧
     firstWhere (fun r => r.id == 5)
       (GitQueue.update_request settings0 remoteB dbNoBranch 5).db =
       some { reqNoBranch with tags := failure_tags reqNoBranch.tags } ∧
     "git-error" ∈ failure_tags reqNoBranch.tags ∧
     "git-ok" ∉ failure_tags reqNoBranch.tags) :=
  ⟨rfl, rfl, rfl,
    c4_empty_branch_failure settings0 remoteB dbNoBranch 5 reqNoBranch rfl rfl rfl⟩

/-- Counterexample for C3: in `dbShadowed` the resolved commit `s3` of job 4
already belongs to another non-discarded request (`reqActive`), yet the
pipeline succeeds, because the duplicate lookup only examines the first row
bound to `s3` (`reqDiscarded`, which is discarded): the job ends with
`revision = s3`, tag `git-ok`, and no failure log. -/
theorem c3_counterexample :
    reqActive ∈ dbShadowed ∧
    reqActive.revision = some "s3" ∧
    reqActive.state ≠ "discarded" ∧
    reqActive.id ≠ 4 ∧
    (firstWhere (fun r => r.id == 4)
        (GitQueue.update_request settings0 remoteB3 dbShadowed 4).db).map
      (fun r => r.revision) = some (some "s3") ∧
    (firstWhere (fun r => r.id == 4)
        (GitQueue.update_request settings0 remoteB3 dbShadowed 4).db).map
      (fun r => r.tags) = some ["git-ok"] ∧
    (GitQueue.update_request settings0 remoteB3 dbShadowed 4).logs = [] :=
  ⟨by decide, rfl, by decide, by decide, by decide, by decide, by decide⟩

/-- C3 (amended): a job fails as a duplicate-revision conflict when the FIRST
table row bound to the resolved commit is a request whose state is not
`discarded`; the failure reason names that row's id and the job's id, exactly
one failure email goes to the owner, no webhook fires, and the job's
`revision` column is left unchanged (only the tags move to the failure
state). -/
theorem c3_duplicate_conflict (s : GitSettings) (remote : ProcResult)
    (db : List Request) (rid : Nat) (req dup : Request) (sha : String)
    (hreq : GitQueue.get_request db rid = some req)
    (hexc : GitQueue.request_is_excluded_from_git_verification s req = false)
    (hbr : req.branch ≠ "")
    (hsha : GitQueue.get_branch_sha_from_repo s remote req = Except.ok (some sha, []))
    (hdup : GitQueue.get_request_with_sha db sha = some dup)
    (hstate : dup.state ≠ "discarded") :
    (GitQueue.update_request s remote db rid).logs =
      [GitQueue.duplicate_sha_msg dup.id rid] ∧
    (GitQueue.update_request s remote db rid).emails =
      [GitQueue.failure_email s req (GitQueue.duplicate_sha_msg dup.id rid)] ∧
    (GitQueue.update_request s remote db rid).webhooks = [] ∧
    firstWhere (fun r => r.id == rid) (GitQueue.update_request s remote db rid).db =
      some { req with tags := failure_tags req.tags } ∧
    ({ req with tags := failure_tags req.tags } : Request).revision = req.revision := by
  have hid : req.id = rid := by
    have := firstWhere_some hreq
    simpa using this
  subst hid
  have hfail := update_request_failure_found s db req
    (GitQueue.duplicate_sha_msg dup.id req.id) hreq
  have hfw := firstWhere_map_applyValues db req
    (UpdatedValues.tagsOnly (failure_tags req.tags)) hreq
  have hbranch : GitQueue.update_request s remote db req.id =
      { db := (GitQueue.update_request_failure s db req
          (GitQueue.duplicate_sha_msg dup.id req.id)).db
        emails := (GitQueue.update_request_failure s db req
          (GitQueue.duplicate_sha_msg dup.id req.id)).emails
        webhooks := (GitQueue.update_request_failure s db req
          (GitQueue.duplicate_sha_msg dup.id req.id)).webhooks
        logs := (GitQueue.update_request_failure s db req
          (GitQueue.duplicate_sha_msg dup.id req.id)).logs
        remoteCalls := 1, exn := none } := by
    simp [GitQueue.update_request, hreq, hexc, hbr, hsha, hdup, hstate]
  refine ⟨?_, ?_, ?_, ?_, rfl⟩
  · rw [hbranch, hfail]
  · rw [hbranch, hfail]
  · rw [hbranch, hfail]
  · rw [hbranch, hfail]
    exact hfw

/-- Witness for C3: in `dbConflict` the first (and only) row bound to `s3`
is non-discarded, so job 4 fails as a duplicate naming ids 3 and 4. -/
theorem c3_duplicate_conflict_witness :
    GitQueue.get_request dbConflict 4 = some reqCur ∧
    GitQueue.request_is_excluded_from_git_verification settings0 reqCur = false ∧
    reqCur.branch ≠ "" ∧
    GitQueue.get_branch_sha_from_repo settings0 remoteB3 reqCur =
      Except.ok (some "s3", []) ∧
    GitQueue.get_request_with_sha dbConflict "s3" = some reqActive ∧
    reqActive.state ≠ "discarded" ∧
    ((GitQueue.update_request settings0 remoteB3 dbConflict 4).logs =
       [GitQueue.duplicate_sha_msg 3 4] ∧
     (GitQueue.update_request settings0 remoteB3 dbConflict 4).emails =
       [GitQueue.failure_email settings0 reqCur (GitQueue.duplicate_sha_msg 3 4)] ∧
     (GitQueue.update_request settings0 remoteB3 dbConflict 4).webhooks = [] ∧
     firstWhere (fun r => r.id == 4)
       (GitQueue.update_request settings0 remoteB3 dbConflict 4).db =
       some { reqCur with tags := failure_tags reqCur.tags } ∧
     ({ reqCur with tags := failure_tags reqCur.tags } : Request).revision =
       reqCur.revision) :=
  ⟨rfl, rfl, by decide, rfl, rfl, by decide,
    c3_duplicate_conflict settings0 remoteB3 dbConflict 4 reqCur reqActive "s3"
      rfl rfl (by decide) rfl rfl (by decide)⟩

/-- Counterexample for C1: `reqOkSelf` already carries `git-ok` and
`revision = s1` from a prior successful verification, and its unchanged
branch still resolves to `s1`; re-running the pipeline reports the request
as conflicting with itself (the log names ids 1 and 1) and flips its tags to
`git-error`, instead of reproducing the `git-ok` state. -/
theorem c1_counterexample :
    reqOkSelf.revision = some "s1" ∧
    "git-ok" ∈ reqOkSelf.tags ∧
    GitQueue.get_branch_sha_from_repo settings0 remoteB reqOkSelf =
      Except.ok (some "s1", []) ∧
    (GitQueue.update_request settings0 remoteB dbSelf 1).logs =
      [GitQueue.duplicate_sha_msg 1 1] ∧
    (firstWhere (fun r => r.id == 1)
        (GitQueue.update_request settings0 remoteB dbSelf 1).db).map
      (fun r => r.tags) = some ["git-error"] :=
  ⟨rfl, by decide, rfl, by decide, by decide⟩

/-- C1 (amended): re-running the pipeline on an already verified request
whose unchanged branch resolves to its stored `revision` does NOT reproduce
the `git-ok` state: since the duplicate lookup does not exclude the request
itself, the first row bound to the commit is the request and, its state not
being `discarded`, the job fails as a duplicate-revision conflict naming the
request's own id on both sides; the tags move to `git-error` (losing
`git-ok`) while `revision` keeps its value. -/
theorem c1_self_conflict (s : GitSettings) (remote : ProcResult)
    (db : List Request) (rid : Nat) (req : Request) (sha : String)
    (hreq : GitQueue.get_request db rid = some req)
    (hexc : GitQueue.request_is_excluded_from_git_verification s req = false)
    (hbr : req.branch ≠ "")
    (hsha : GitQueue.get_branch_sha_from_repo s remote req = Except.ok (some sha, []))
    (hself : GitQueue.get_request_with_sha db sha = some req)
    (hstate : req.state ≠ "discarded")
    (_hok : "git-ok" ∈ req.tags)
    (hrev : req.revision = some sha) :
    (GitQueue.update_request s remote db rid).logs =
      [GitQueue.duplicate_sha_msg rid rid] ∧
    (GitQueue.update_request s remote db rid).emails =
      [GitQueue.failure_email s req (GitQueue.duplicate_sha_msg rid rid)] ∧
    firstWhere (fun r => r.id == rid) (GitQueue.update_request s remote db rid).db =
      some { req with tags := failure_tags req.tags } ∧
    "git-ok" ∉ failure_tags req.tags ∧
    "git-error" ∈ failure_tags req.tags ∧
    ({ req with tags := failure_tags req.tags } : Request).revision = some sha := by
  have hid : req.id = rid := by
    have := firstWhere_some hreq
    simpa using this
  subst hid
  have hfail := update_request_failure_found s db req
    (GitQueue.duplicate_sha_msg req.id req.id) hreq
  have hfw := firstWhere_map_applyValues db req
    (UpdatedValues.tagsOnly (failure_tags req.tags)) hreq
  have hbranch : GitQueue.update_request s remote db req.id =
      { db := (GitQueue.update_request_failure s db req
          (GitQueue.duplicate_sha_msg req.id req.id)).db
        emails := (GitQueue.update_request_failure s db req
          (GitQueue.duplicate_sha_msg req.id req.id)).emails
        webhooks := (GitQueue.update_request_failure s db req
          (GitQueue.duplicate_sha_msg req.id req.id)).webhooks
        logs := (GitQueue.update_request_failure s db req
          (GitQueue.duplicate_sha_msg req.id req.id)).logs
        remoteCalls := 1, exn := none } := by
    simp [GitQueue.update_request, hreq, hexc, hbr, hsha, hself, hstate]
  refine ⟨?_, ?_, ?_, failure_tags_not_mem_ok _, failure_tags_mem_error _, hrev⟩
  · rw [hbranch, hfail]
  · rw [hbranch, hfail]
  · rw [hbranch, hfail]
    exact hfw

/-- Witness for C1 (amended): the concrete already-verified request
`reqOkSelf` conflicts with itself on re-verification. -/
theorem c1_self_conflict_witness :
    GitQueue.get_request dbSelf 1 = some reqOkSelf ∧
    GitQueue.request_is_excluded_from_git_verification settings0 reqOkSelf = false ∧
    reqOkSelf.branch ≠ "" ∧
    GitQueue.get_branch_sha_from_repo settings0 remoteB reqOkSelf =
      Except.ok (some "s1", []) ∧
    GitQueue.get_request_with_sha dbSelf "s1" = some reqOkSelf ∧
    reqOkSelf.state ≠ "discarded" ∧
    ((GitQueue.update_request settings0 remoteB dbSelf 1).logs =
       [GitQueue.duplicate_sha_msg 1 1] ∧
     (GitQueue.update_request settings0 remoteB dbSelf 1).emails =
       [GitQueue.failure_email settings0 reqOkSelf (GitQueue.duplicate_sha_msg 1 1)] ∧
     firstWhere (fun r => r.id == 1)
       (GitQueue.update_request settings0 remoteB dbSelf 1).db =
       some { reqOkSelf with tags := failure_tags reqOkSelf.tags } ∧
     "git-ok" ∉ failure_tags reqOkSelf.tags ∧
     "git-error" ∈ failure_tags reqOkSelf.tags ∧
     ({ reqOkSelf with tags := failure_tags reqOkSelf.tags } : Request).revision =
       some "s1") :=
  ⟨rfl, rfl, by decide, rfl, rfl, by decide,
    c1_self_conflict settings0 remoteB dbSelf 1 reqOkSelf "s1"
      rfl rfl (by decide) rfl rfl (by decide) (by decide) rfl⟩

/-- Counterexample for C2: for job 1 over `dbSelf` the branch resolves to
`s1` and no OTHER non-discarded request is bound to `s1` (the only binding
is the request's own), yet the pipeline does not add `git-ok`: it ends in
`git-error` with no webhook fired, because the duplicate lookup matches the
request itself. -/
theorem c2_counterexample :
    (∀ r ∈ dbSelf, r.revision = some "s1" → r.id = 1) ∧
    GitQueue.get_branch_sha_from_repo settings0 remoteB reqOkSelf =
      Except.ok (some "s1", []) ∧
    (firstWhere (fun r => r.id == 1)
        (GitQueue.update_request settings0 remoteB dbSelf 1).db).map
      (fun r => r.tags) = some ["git-error"] ∧
    (GitQueue.update_request settings0 remoteB dbSelf 1).webhooks = [] :=
  ⟨by decide, rfl, by decide, by decide⟩

/-- C2 (amended): when the request exists, is not excluded, its non-empty
branch resolves to commit `sha`, and NO row of the table at all — the
request's own row included — is bound to `sha` with a state other than
`discarded`, the pipeline persists `revision = sha` with the success tags
(`git-ok` gained, `git-error` lost), enqueues exactly one success email to
the owner, and fires the webhook calls for the branch ref, the resolved
commit, and, when a review id is present, the review id. -/
theorem c2_success_pipeline (s : GitSettings) (remote : ProcResult)
    (db : List Request) (rid : Nat) (req : Request) (sha : String)
    (hreq : GitQueue.get_request db rid = some req)
    (hexc : GitQueue.request_is_excluded_from_git_verification s req = false)
    (hbr : req.branch ≠ "")
    (hsha : GitQueue.get_branch_sha_from_repo s remote req = Except.ok (some sha, []))
    (hnodup : ∀ r ∈ db, r.revision = some sha → r.state = "discarded") :
    (GitQueue.update_request s remote db rid).exn = none ∧
    (GitQueue.update_request s remote db rid).remoteCalls = 1 ∧
    firstWhere (fun r => r.id == rid) (GitQueue.update_request s remote db rid).db =
      some { req with revision := some sha, tags := success_tags req.tags } ∧
    (GitQueue.update_request s remote db rid).emails =
      [GitQueue.success_email s
        { req with revision := some sha, tags := success_tags req.tags }] ∧
    (GitQueue.update_request s remote db rid).webhooks =
      [{ left_type := "pushrequest", left_token := toString rid
         right_type := "ref", right_token := req.branch },
       { left_type := "pushrequest", left_token := toString rid
         right_type := "commit", right_token := sha }] ++
      (match req.reviewid with
       | some rv =>
         [{ left_type := "pushrequest", left_token := toString rid
            right_type := "review", right_token := toString rv }]
       | none => []) ∧
    (GitQueue.update_request s remote db rid).logs = [] ∧
    "git-ok" ∈ success_tags req.tags ∧
    "git-error" ∉ success_tags req.tags := by
  have hid : req.id = rid := by
    have := firstWhere_some hreq
    simpa using this
  subst hid
  have hcommit := commit_success_found s db req sha hreq
  have hfw := firstWhere_map_applyValues db req
    (UpdatedValues.revisionAndTags sha (success_tags req.tags)) hreq
  have hbranch : GitQueue.update_request s remote db req.id =
      { db := (GitQueue.commit_success s db req sha).db
        emails := (GitQueue.commit_success s db req sha).emails
        webhooks := (GitQueue.commit_success s db req sha).webhooks
        logs := (GitQueue.commit_success s db req sha).logs
        remoteCalls := 1, exn := none } := by
    cases hdup : GitQueue.get_request_with_sha db sha with
    | none => simp [GitQueue.update_request, hreq, hexc, hbr, hsha, hdup]
    | some dup =>
      have hmem := mem_of_firstWhere hdup
      have hrev : dup.revision = some sha := by
        simpa using firstWhere_some hdup
      have hdisc : dup.state = "discarded" := hnodup dup hmem hrev
      simp [GitQueue.update_request, hreq, hexc, hbr, hsha, hdup, hdisc]
  refine ⟨?_, ?_, ?_, ?_, ?_, ?_, success_tags_mem_ok _, success_tags_not_mem_error _⟩
  · rw [hbranch]
  · rw [hbranch]
  · rw [hbranch, hcommit]
    exact hfw
  · rw [hbranch, hcommit]
  · rw [hbranch, hcommit]
    rfl
  · rw [hbranch, hcommit]

/-- Witness for C2 (amended): the fresh request `reqFresh` (review id 42)
is verified at `abc123` with one success email and three webhook calls. -/
theorem c2_success_pipeline_witness :
    GitQueue.get_request dbFresh 7 = some reqFresh ∧
    GitQueue.request_is_excluded_from_git_verification settings0 reqFresh = false ∧
    reqFresh.branch ≠ "" ∧
    GitQueue.get_branch_sha_from_repo settings0 remoteF1 reqFresh =
      Except.ok (some "abc123", []) ∧
    (∀ r ∈ dbFresh, r.revision = some "abc123" → r.state = "discarded") ∧
    ((GitQueue.update_request settings0 remoteF1 dbFresh 7).exn = none ∧
     (GitQueue.update_request settings0 remoteF1 dbFresh 7).remoteCalls = 1 ∧
     firstWhere (fun r => r.id == 7)
       (GitQueue.update_request settings0 remoteF1 dbFresh 7).db =
       some { reqFresh with
              revision := some "abc123"
              tags := success_tags reqFresh.tags } ∧
     (GitQueue.update_request settings0 remoteF1 dbFresh 7).emails =
       [GitQueue.success_email settings0
         { reqFresh with
           revision := some "abc123"
           tags := success_tags reqFresh.tags }] ∧
     (GitQueue.update_request settings0 remoteF1 dbFresh 7).webhooks =
       [{ left_type := "pushrequest", left_token := "7"
          right_type := "ref", right_token := reqFresh.branch },
        { left_type := "pushrequest", left_token := "7"
          right_type := "commit", right_token := "abc123" }] ++
       (match reqFresh.reviewid with
        | some rv =>
          [{ left_type := "pushrequest", left_token := "7"
             right_type := "review", right_token := toString rv }]
        | none => []) ∧
     (GitQueue.update_request settings0 remoteF1 dbFresh 7).logs = [] ∧
     "git-ok" ∈ success_tags reqFresh.tags ∧
     "git-error" ∉ success_tags reqFresh.tags) :=
  ⟨rfl, rfl, by decide, rfl, by decide,
    c2_success_pipeline settings0 remoteF1 dbFresh 7 reqFresh "abc123"
      rfl rfl (by decide) rfl (by decide)⟩

/-- Counterexample for C10: at the spec scenario input (exit code 128,
stderr `repository not found`) the pipeline enqueues no email at all —
neither the two claimed emails nor one — because `GitCommand.run` raises and
the exception escapes `update_request`. -/
theorem c10_counterexample :
    remoteFail.returncode = 128 ∧
    (GitQueue.update_request settings0 remoteFail dbRemoteErr 9).emails = [] ∧
    (GitQueue.update_request settings0 remoteFail dbRemoteErr 9).emails.length ≠ 2 ∧
    (GitQueue.update_request settings0 remoteFail dbRemoteErr 9).exn.isSome = true :=
  ⟨rfl, by decide, by decide, by decide⟩

/-- C10 (amended): for every job whose `ls-remote` process exits non-zero,
no email is enqueued at all: `GitCommand.run` raises a `GitException`
carrying the exit code and the raw stderr, the exception propagates out of
`update_request` (leaving the table untouched after the single remote call),
and both email branches — the raw-stderr error email and the generic
failure email — are unreachable. -/
theorem c10_no_email_on_remote_failure (s : GitSettings) (remote : ProcResult)
    (db : List Request) (rid : Nat) (req : Request)
    (hreq : GitQueue.get_request db rid = some req)
    (hexc : GitQueue.request_is_excluded_from_git_verification s req = false)
    (hbr : req.branch ≠ "")
    (hrc : remote.returncode ≠ 0) :
    GitQueue.update_request s remote db rid =
      { db := db, emails := [], webhooks := [], logs := []
        remoteCalls := 1
        exn := some
          { details := "GitException: git " ++ String.intercalate " "
              ["ls-remote", "-h", GitQueue.get_repository_uri s req.repo, req.branch]
              ++ " "
            gitret := remote.returncode
            gitout := remote.stdout
            giterr := remote.stderr } } := by
  simp [GitQueue.update_request, hreq, hexc, hbr,
    GitQueue.get_branch_sha_from_repo, GitCommand.run, hrc]

/-- Witness for C10 (amended): the concrete failing remote query yields only
an escaped `GitException`, no emails. -/
theorem c10_no_email_on_remote_failure_witness :
    GitQueue.get_request dbRemoteErr 9 = some reqRemoteErr ∧
    GitQueue.request_is_excluded_from_git_verification settings0 reqRemoteErr = false ∧
    reqRemoteErr.branch ≠ "" ∧
    remoteFail.returncode ≠ 0 ∧
    GitQueue.update_request settings0 remoteFail dbRemoteErr 9 =
      { db := dbRemoteErr, emails := [], webhooks := [], logs := []
        remoteCalls := 1
        exn := some
          { details := "GitException: git " ++ String.intercalate " "
              ["ls-remote", "-h",
                GitQueue.get_repository_uri settings0 reqRemoteErr.repo,
                reqRemoteErr.branch] ++ " "
            gitret := remoteFail.returncode
            gitout := remoteFail.stdout
            giterr := remoteFail.stderr } } :=
  ⟨rfl, rfl, by decide, by decide,
    c10_no_email_on_remote_failure settings0 remoteFail dbRemoteErr 9 reqRemoteErr
      rfl rfl (by decide) (by decide)⟩

/-- C6 (code bug): the claim — and the spec — require that a non-zero exit
of the remote query emails the owner the raw stderr verbatim, and
`_get_branch_sha_from_repo` even contains the email template for it; but
that branch is dead code, because `GitCommand.run` raises `GitException` on
any non-zero return code, so `run` never returns a non-zero `rc`.  At the
spec scenario input (exit 128, stderr `repository not found`) the raw error
text ends up only in the exception escaping `update_request`, and no email
is enqueued. -/
theorem c6_remote_error_exception_no_email :
    remoteFail.returncode = 128 ∧
    remoteFail.stderr = "repository not found" ∧
    (GitQueue.update_request settings0 remoteFail dbRemoteErr 9).emails = [] ∧
    (GitQueue.update_request settings0 remoteFail dbRemoteErr 9).exn.map
      (fun e => (e.gitret, e.giterr)) = some (128, "repository not found") :=
  ⟨rfl, rfl, by decide, by decide⟩

/-- Value of `GitQueue._update_request` when no row matches the request id:
the table is unchanged, no row is re-read, and the two persistence error
lines are logged. -/
theorem update_request_db_missing (db : List Request) (req : Request)
    (v : UpdatedValues) (h : ∀ r ∈ db, r.id ≠ req.id) :
    GitQueue.update_request_db db req v =
      { db := db
        updated := none
        logs :=
          ["Git-queue worker failed to update the request (id "
              ++ toString req.id ++ ").",
           "Updated Request values were: " ++ reprValues v] } := by
  have hmap : db.map (fun r => if r.id == req.id then applyValues v r else r) = db := by
    have hcong : ∀ a ∈ db,
        (if a.id == req.id then applyValues v a else a) = id a := by
      intro a ha
      rw [if_neg]
      · rfl
      · simp [h a ha]
    rw [List.map_congr_left hcong, List.map_id]
  have hfind : firstWhere (fun r => r.id == req.id)
      (db.map (fun r => if r.id == req.id then applyValues v r else r)) = none := by
    rw [hmap]
    exact firstWhere_eq_none (fun x hx => by simp [h x hx])
  unfold GitQueue.update_request_db
  rw [hfind, hmap]

/-- C9: when the atomic update-then-reread matches zero rows, the commit
step logs the persistence error with the request id and the attempted
values, and the success notification is entirely skipped: no email and no
webhook is produced. -/
theorem c9_zero_rows_skips_notification (s : GitSettings) (db : List Request)
    (req : Request) (sha : String)
    (h : ∀ r ∈ db, r.id ≠ req.id) :
    GitQueue.commit_success s db req sha =
      { db := db
        emails := []
        webhooks := []
        logs :=
          ["Git-queue worker failed to update the request (id "
              ++ toString req.id ++ ").",
           "Updated Request values were: "
              ++ reprValues (UpdatedValues.revisionAndTags sha (success_tags req.tags))] } := by
  unfold GitQueue.commit_success
  rw [update_request_db_missing db req _ h]

/-- Witness for C9: committing a success for a request whose row is absent
from the table logs the two persistence error lines and notifies no one. -/
theorem c9_zero_rows_skips_notification_witness :
    (∀ r ∈ ([] : List Request), r.id ≠ reqCur.id) ∧
    GitQueue.commit_success settings0 [] reqCur "s9" =
      { db := []
        emails := []
        webhooks := []
        logs :=
          ["Git-queue worker failed to update the request (id "
              ++ toString reqCur.id ++ ").",
           "Updated Request values were: "
              ++ reprValues
                (UpdatedValues.revisionAndTags "s9" (success_tags reqCur.tags))] } :=
  ⟨by simp, c9_zero_rows_skips_notification settings0 [] reqCur "s9" (by simp)⟩

/-- A row of the table after `GitQueue._update_request` is either an
untouched original row or carries exactly the tag list the update wrote. -/
theorem mem_update_request_db (db : List Request) (req : Request)
    (v : UpdatedValues) (r : Request)
    (h : r ∈ (GitQueue.update_request_db db req v).db) :
    r ∈ db ∨ r.tags = v.tags := by
  rw [update_request_db_db] at h
  rcases List.mem_map.mp h with ⟨a, ha, hfa⟩
  by_cases hid : (a.id == req.id) = true
  · right
    rw [← hfa, if_pos hid, applyValues_tags]
  · left
    rw [← hfa, if_neg hid]
    exact ha

/-- The table a pipeline run leaves behind is the input table, or the input
table with the job's row moved to the failure tag state, or with the job's
row moved to the success tag state. -/
theorem update_request_db_shape (s : GitSettings) (remote : ProcResult)
    (db : List Request) (rid : Nat) :
    (GitQueue.update_request s remote db rid).db = db ∨
    (∃ req msg, (GitQueue.update_request s remote db rid).db =
      (GitQueue.update_request_failure s db req msg).db) ∨
    (∃ req sha, (GitQueue.update_request s remote db rid).db =
      (GitQueue.commit_success s db req sha).db) := by
  cases hq : GitQueue.get_request db rid with
  | none =>
    left
    simp [GitQueue.update_request, hq]
  | some req =>
    by_cases hexc : GitQueue.request_is_excluded_from_git_verification s req = true
    · left
      simp [GitQueue.update_request, hq, hexc]
    · have hexc2 : GitQueue.request_is_excluded_from_git_verification s req = false := by
        simpa using hexc
      by_cases hbr : req.branch = ""
      · right; left
        exact ⟨req, GitQueue.no_branch_msg rid,
          by simp [GitQueue.update_request, hq, hexc2, hbr]⟩
      · cases hsha : GitQueue.get_branch_sha_from_repo s remote req with
        | error e =>
          left
          simp [GitQueue.update_request, hq, hexc2, hbr, hsha]
        | ok val =>
          obtain ⟨shaOpt, mails⟩ := val
          cases shaOpt with
          | none =>
            right; left
            exact ⟨req, GitQueue.no_revision_msg rid,
              by simp [GitQueue.update_request, hq, hexc2, hbr, hsha]⟩
          | some sha =>
            cases hdup : GitQueue.get_request_with_sha db sha with
            | none =>
              right; right
              exact ⟨req, sha,
                by simp [GitQueue.update_request, hq, hexc2, hbr, hsha, hdup]⟩
            | some dup =>
              by_cases hst : dup.state = "discarded"
              · right; right
                exact ⟨req, sha,
                  by simp [GitQueue.update_request, hq, hexc2, hbr, hsha, hdup, hst]⟩
              · right; left
                exact ⟨req, GitQueue.duplicate_sha_msg dup.id rid,
                  by simp [GitQueue.update_request, hq, hexc2, hbr, hsha, hdup, hst]⟩

/-- C7: after a pipeline run, every row of the table is either an untouched
input row or contains at most one of the mutually exclusive markers
`git-ok` / `git-error`: the success commit adds `git-ok` and removes
`git-error`, the failure commit adds `git-error` and removes `git-ok`, and
no operation produces a row carrying both. -/
theorem c7_tag_markers_exclusive (s : GitSettings) (remote : ProcResult)
    (db : List Request) (rid : Nat) (r : Request)
    (h : r ∈ (GitQueue.update_request s remote db rid).db) :
    r ∈ db ∨ ¬("git-ok" ∈ r.tags ∧ "git-error" ∈ r.tags) := by
  rcases update_request_db_shape s remote db rid with hdb | ⟨req, msg, hdb⟩ | ⟨req, sha, hdb⟩
  · rw [hdb] at h
    exact Or.inl h
  · rw [hdb, update_request_failure_db] at h
    rcases mem_update_request_db db req _ r h with hm | ht
    · exact Or.inl hm
    · right
      rintro ⟨hokmem, _⟩
      rw [ht] at hokmem
      exact failure_tags_not_mem_ok req.tags (by simpa [UpdatedValues.tags] using hokmem)
  · rw [hdb, commit_success_db_eq] at h
    rcases mem_update_request_db db req _ r h with hm | ht
    · exact Or.inl hm
    · right
      rintro ⟨_, herrmem⟩
      rw [ht] at herrmem
      exact success_tags_not_mem_error req.tags (by simpa [UpdatedValues.tags] using herrmem)

/-- Witness for C7: the row mutated by the concrete self-conflict run
carries `git-error` but not `git-ok`. -/
theorem c7_tag_markers_exclusive_witness :
    ({ reqOkSelf with tags := ["git-error"] } : Request) ∈
      (GitQueue.update_request settings0 remoteB dbSelf 1).db ∧
    (({ reqOkSelf with tags := ["git-error"] } : Request) ∈ dbSelf ∨
      ¬("git-ok" ∈ ({ reqOkSelf with tags := ["git-error"] } : Request).tags ∧
        "git-error" ∈ ({ reqOkSelf with tags := ["git-error"] } : Request).tags)) :=
  ⟨by decide,
    c7_tag_markers_exclusive settings0 remoteB dbSelf 1
      { reqOkSelf with tags := ["git-error"] } (by decide)⟩

/-- Each queued job contributes exactly one throttle event to the worker
trace, whatever the per-job outcomes. -/
theorem process_queue_with_count_throttle {σ : Type}
    (run : σ → Nat → σ × Option String) (st : σ) (jobs : List Nat) :
    ((process_queue_with run st jobs).2.count WorkerEvent.throttle) = jobs.length := by
  induction jobs generalizing st with
  | nil => rfl
  | cons j rest ih =>
    simp only [process_queue_with, List.count_cons, List.count_append]
    cases (run st j).2 <;>
      simp [List.count_cons, List.count_append, ih (run st j).1]

/-- Each queued job is marked complete exactly once, whatever the per-job
outcomes (including an exception escaping the pipeline). -/
theorem process_queue_with_count_task_done {σ : Type}
    (run : σ → Nat → σ × Option String) (st : σ) (jobs : List Nat) :
    ((process_queue_with run st jobs).2.count WorkerEvent.task_done) = jobs.length := by
  induction jobs generalizing st with
  | nil => rfl
  | cons j rest ih =>
    simp only [process_queue_with, List.count_cons, List.count_append]
    cases (run st j).2 <;>
      simp [List.count_cons, List.count_append, ih (run st j).1]

/-- C8: the worker loop throttles once before every job, marks every
dequeued job complete exactly once whatever its outcome, and an exception in
one job never stops the loop: the trace of `j :: rest` is the throttle, the
`THREAD ERROR` log exactly when the job's run signals an exception, the
`task_done`, and then the full processing of `rest` from the resulting
state — for an arbitrary per-job action (covering injected failures) and in
particular for the concrete pipeline `GitQueue.process_queue`. -/
theorem c8_worker_loop_resilient :
    (∀ (σ : Type) (run : σ → Nat → σ × Option String) (st : σ) (jobs : List Nat),
      ((process_queue_with run st jobs).2.count WorkerEvent.throttle) = jobs.length ∧
      ((process_queue_with run st jobs).2.count WorkerEvent.task_done) = jobs.length) ∧
    (∀ (σ : Type) (run : σ → Nat → σ × Option String) (st : σ) (j : Nat)
        (rest : List Nat),
      (process_queue_with run st (j :: rest)).2 =
        WorkerEvent.throttle ::
          ((match (run st j).2 with
            | some m => [WorkerEvent.log m]
            | none => []) ++
            WorkerEvent.task_done :: (process_queue_with run (run st j).1 rest).2)) ∧
    (∀ (s : GitSettings) (remote : Nat → ProcResult) (db : List Request)
        (jobs : List Nat),
      ((GitQueue.process_queue s remote db jobs).2.count WorkerEvent.task_done) =
        jobs.length) :=
  ⟨fun _ run st jobs =>
    ⟨process_queue_with_count_throttle run st jobs,
     process_queue_with_count_task_done run st jobs⟩,
   fun _ _ _ _ _ => rfl,
   fun _ _ db jobs =>
    process_queue_with_count_task_done _ db jobs⟩
